import Mathlib

/-!
# nfcuid: tray supervisor, icon lookup and flag checking

A shallow embedding of `src/tray.go` and `src/main.go`.

* Package-level variables of `tray.go` and the widget state kept by the
  `systray` library become the fields of the record `Tray`.
* A `context.Context` made by `context.WithCancel` is a natural number; the
  set of contexts on which the cancel function was called is the list
  `Tray.cancelled`.
* `go func() { ... }()` appends a `Task` to `Tray.launched`.
* `ioutil.ReadFile` is a partial map from file names to contents.
* A `[]byte` is `Option (List Nat)`, `none` being the `nil` slice.
-/

namespace Nfcuid

/-! ## Data model -/

/-- The `Flags` record filled by `main`. Its declaration and the type of its
two character fields are outside `main.go` and `tray.go`, so the character
type is the parameter `C`. -/
structure Flags (C : Type) where
  EndChar : C
  InChar : C
  CapsLock : Bool
  Reverse : Bool
  Decimal : Bool
  Device : Int
deriving DecidableEq, Repr

/-- What `systray` keeps for one `*systray.MenuItem`. -/
structure MenuItem where
  title : String
  tooltip : String
  disabled : Bool
deriving DecidableEq, Repr

/-- The call `systray.AddMenuItem(title, tooltip)`. -/
def AddMenuItem (title tooltip : String) : MenuItem :=
  { title := title, tooltip := tooltip, disabled := false }

/-- The method `(*MenuItem).SetTitle`. -/
def MenuItem.SetTitle (m : MenuItem) (title : String) : MenuItem :=
  { m with title := title }

/-- The method `(*MenuItem).SetTooltip`. -/
def MenuItem.SetTooltip (m : MenuItem) (tooltip : String) : MenuItem :=
  { m with tooltip := tooltip }

/-- The method `(*MenuItem).Disable`. -/
def MenuItem.Disable (m : MenuItem) : MenuItem :=
  { m with disabled := true }

/-- A goroutine started by `startService`: the body is
`service := NewService(currentFlags); service.StartAsync(serviceCtx)`, so the
task is described by the flags and the context it is handed. Both variables
are assigned once, before any goroutine is started (`currentFlags` in `main`,
`serviceCtx` in `onReady`), so the values the goroutine reads are the ones at
the `go` statement. -/
structure Task (C : Type) where
  flags : Flags C
  ctx : Option Nat
deriving DecidableEq, Repr

/-- The state of the tray process from `onReady` on: the package variables of
`tray.go` (`serviceCtx`, `serviceCancel`, `running`, `statusMenu`,
`deviceMenu`, `currentFlags`), the two menu items local to `onReady`, the
widget state of `systray`, and the bookkeeping of contexts and goroutines.
`iconStatus` records the argument of the latest `setIconForStatus` call that
reached `systray.SetIcon`. -/
structure Tray (C : Type) where
  serviceCtx : Option Nat
  serviceCancel : Option Nat
  running : Bool
  statusMenu : MenuItem
  deviceMenu : MenuItem
  currentFlags : Flags C
  mToggle : MenuItem
  mQuit : MenuItem
  trayIcon : List Nat
  iconStatus : String
  trayTooltip : String
  trayTitle : String
  quitRequested : Bool
  cancelled : List Nat
  launched : List (Task C)
deriving DecidableEq, Repr

/-- The file system seen by `ioutil.ReadFile`: `none` is a read error. -/
abbrev FS := String → Option (List Nat)

/-! ## Icon lookup (`tray.go`, lines 109-176) -/

/-- The bytes returned by `getDefaultIcon`. -/
def getDefaultIcon : Option (List Nat) :=
  some [
    0x89, 0x50, 0x4E, 0x47, 0x0D, 0x0A, 0x1A, 0x0A, 0x00, 0x00, 0x00, 0x0D,
    0x49, 0x48, 0x44, 0x52, 0x00, 0x00, 0x00, 0x10, 0x00, 0x00, 0x00, 0x10,
    0x08, 0x06, 0x00, 0x00, 0x00, 0x1F, 0xF3, 0xFF, 0x61, 0x00, 0x00, 0x00,
    0x19, 0x74, 0x45, 0x58, 0x74, 0x53, 0x6F, 0x66, 0x74, 0x77, 0x61, 0x72,
    0x65, 0x00, 0x41, 0x64, 0x6F, 0x62, 0x65, 0x20, 0x49, 0x6D, 0x61, 0x67,
    0x65, 0x52, 0x65, 0x61, 0x64, 0x79, 0xCC, 0x35, 0x8C, 0x59, 0x00, 0x00,
    0x00, 0x0A, 0x49, 0x44, 0x41, 0x54, 0x78, 0x9C, 0x63, 0x00, 0x01, 0x00,
    0x00, 0x05, 0x00, 0x01, 0x0D, 0x0A, 0x2D, 0xB4, 0x00, 0x00, 0x00, 0x00,
    0x49, 0x45, 0x4E, 0x44, 0xAE, 0x42, 0x60, 0x82]

/-- The map literal `icoFiles` of `getIconDataForStatus`; `none` is a failed
lookup (`ok == false`). -/
def icoFiles (status : String) : Option String :=
  if status = "stopped" then some "icon_stopped.ico"
  else if status = "running" then some "icon_running.ico"
  else none

/-- The map literal `pngFiles` of `getIconDataForStatus`. -/
def pngFiles (status : String) : Option String :=
  if status = "stopped" then some "icon_stopped.png"
  else if status = "running" then some "icon_running.png"
  else none

/-- The function `getIconDataForStatus`: the status-specific `.ico`, then the
status-specific `.png`, then, under the guard `status == "stopped"`,
`icon.ico` and `icon.png`, and last `getDefaultIcon()`. A successful
`ReadFile` returns a non-nil slice. -/
def getIconDataForStatus (fs : FS) (status : String) : Option (List Nat) :=
  match (icoFiles status).bind fs with
  | some data => some data
  | none =>
    match (pngFiles status).bind fs with
    | some data => some data
    | none =>
      if status = "stopped" then
        match fs "icon.ico" with
        | some data => some data
        | none =>
          match fs "icon.png" with
          | some data => some data
          | none => getDefaultIcon
      else getDefaultIcon

/-- The function `setIconForStatus`: `systray.SetIcon` is called when the
looked-up data is not `nil`. -/
def setIconForStatus {C : Type} (fs : FS) (status : String) (s : Tray C) : Tray C :=
  match getIconDataForStatus fs status with
  | some iconData => { s with trayIcon := iconData, iconStatus := status }
  | none => s

/-! ## The supervisor (`tray.go`, lines 22-107) -/

/-- Calling the `context.CancelFunc` of context `c`: the context becomes
cancelled; later calls do nothing. -/
def cancelCtx (c : Nat) (cancelled : List Nat) : List Nat :=
  if c ∈ cancelled then cancelled else c :: cancelled

/-- The state at the end of `onReady` (before any click or signal is handled),
for the flags stored by `main` in `currentFlags`. `running` still has its zero
value; the one context of the process, made by `context.WithCancel` on line 43,
is context `0`. -/
def onReady {C : Type} (fs : FS) (flags : Flags C) : Tray C :=
  setIconForStatus fs "stopped"
    { serviceCtx := some 0
      serviceCancel := some 0
      running := false
      statusMenu := (AddMenuItem "Status: Stopped" "Current status").Disable
      deviceMenu := (AddMenuItem "Device: Not selected" "Selected device").Disable
      currentFlags := flags
      mToggle := AddMenuItem "Start" "Start reading NFC tags"
      mQuit := AddMenuItem "Quit" "Quit the application"
      trayIcon := []
      iconStatus := ""
      trayTooltip := "NFC UID Reader - Stopped"
      trayTitle := "NFC UID"
      quitRequested := false
      cancelled := []
      launched := [] }

/-- The function `startService`. -/
def startService {C : Type} (fs : FS) (s : Tray C) : Tray C :=
  if s.running then s
  else
    let s1 := { s with running := true }
    let s2 := { s1 with statusMenu := s1.statusMenu.SetTitle "Status: Running..." }
    let s3 := setIconForStatus fs "running" s2
    let s4 := { s3 with trayTooltip := "NFC UID Reader - Running..." }
    { s4 with launched := { flags := s4.currentFlags, ctx := s4.serviceCtx } :: s4.launched }

/-- The function `stopService`. -/
def stopService {C : Type} (fs : FS) (s : Tray C) : Tray C :=
  if !s.running then s
  else
    let s1 := { s with running := false }
    let s2 :=
      match s1.serviceCancel with
      | some c => { s1 with cancelled := cancelCtx c s1.cancelled }
      | none => s1
    let s3 := { s2 with statusMenu := s2.statusMenu.SetTitle "Status: Stopped" }
    let s4 := setIconForStatus fs "stopped" s3
    { s4 with trayTooltip := "NFC UID Reader - Stopped" }

/-- The function `onExit`. -/
def onExit {C : Type} (fs : FS) (s : Tray C) : Tray C :=
  stopService fs s

/-- One pass of the menu goroutine for a receive on `mToggle.ClickedCh`. -/
def toggleClick {C : Type} (fs : FS) (s : Tray C) : Tray C :=
  if !s.running then
    let s1 := startService fs s
    let s2 := { s1 with mToggle := s1.mToggle.SetTitle "Stop" }
    { s2 with mToggle := s2.mToggle.SetTooltip "Stop reading NFC tags" }
  else
    let s1 := stopService fs s
    let s2 := { s1 with mToggle := s1.mToggle.SetTitle "Start" }
    { s2 with mToggle := s2.mToggle.SetTooltip "Start reading NFC tags" }

/-- One pass of the menu goroutine for a receive on `mQuit.ClickedCh`, and the
body of the signal goroutine: `stopService()` then `systray.Quit()`. -/
def quitClick {C : Type} (fs : FS) (s : Tray C) : Tray C :=
  { stopService fs s with quitRequested := true }

/-- A call made on the supervisor. -/
inductive Call where
  | start
  | stop
deriving DecidableEq, Repr

/-- Performing one call. -/
def applyCall {C : Type} (fs : FS) (s : Tray C) : Call → Tray C
  | Call.start => startService fs s
  | Call.stop => stopService fs s

/-- Performing a sequence of calls one after another. -/
def runCalls {C : Type} (fs : FS) (calls : List Call) (s : Tray C) : Tray C :=
  calls.foldl (applyCall fs) s

/-- A task is live when it is bound to a context that exists and has not been
cancelled. -/
def Task.live {C : Type} (cancelled : List Nat) (t : Task C) : Bool :=
  match t.ctx with
  | some c => decide (c ∉ cancelled)
  | none => false

/-- The number of launched tasks bound to a context that is not cancelled. -/
def liveCount {C : Type} (s : Tray C) : Nat :=
  (s.launched.filter (Task.live s.cancelled)).length

/-! ## Flag checking (`main.go`, lines 25-46) -/

/-- What `main` does after `flag.Parse()`, as the sequence of its effects. -/
inductive MainEvent (C : Type) where
  | errorExit (msg : String)
  | storeCurrentFlags (f : Flags C)
  | systrayRun
  | newService (f : Flags C)
  | serviceStart
deriving DecidableEq, Repr

/-- The function `main` from the comment `//Check flags` on. The resolver
`StringToCharFlag` is declared outside `main.go`, so it is a parameter,
returning the pair `(CharFlag, ok)` as in the source; the parsed command line
is the remaining arguments. Each `errorExit` is followed by `return`. -/
def main {C : Type} (StringToCharFlag : String → C × Bool) (endChar inChar : String)
    (capsLock reverse decimal : Bool) (device : Int) (useTray : Bool) : List (MainEvent C) :=
  let r1 := StringToCharFlag endChar
  if !r1.2 then
    [MainEvent.errorExit "Unknown end character flag. Run with '-h' flag to check options"]
  else
    let r2 := StringToCharFlag inChar
    if !r2.2 then
      [MainEvent.errorExit "Unknown in character flag. Run with '-h' flag to check options"]
    else
      let appFlags : Flags C :=
        { EndChar := r1.1, InChar := r2.1, CapsLock := capsLock, Reverse := reverse,
          Decimal := decimal, Device := device }
      if useTray then
        [MainEvent.storeCurrentFlags appFlags, MainEvent.systrayRun]
      else
        [MainEvent.newService appFlags, MainEvent.serviceStart]

/-- Whether a run of `main` constructed a service, stored `currentFlags` or
entered `systray.Run`. -/
def MainEvent.startsWork {C : Type} : MainEvent C → Bool
  | MainEvent.errorExit _ => false
  | _ => true

/-- Whether a run of `main` starts reading: it reaches `systray.Run` or
`service.Start()`. -/
def MainEvent.startsReading {C : Type} : MainEvent C → Bool
  | MainEvent.systrayRun => true
  | MainEvent.serviceStart => true
  | _ => false

/-! ## Interleaved `startService` calls -/

/-- One statement of `startService` executed by a caller whose next statement
is number `pc`: `0` is the test `if running`, `1` the assignment
`running = true`, `2` `statusMenu.SetTitle`, `3` `setIconForStatus`,
`4` `systray.SetTooltip`, `5` the `go` statement, and `6` is returned. The
result is the caller's next statement and the shared state. -/
def startStep {C : Type} (fs : FS) (pc : Nat) (s : Tray C) : Nat × Tray C :=
  match pc with
  | 0 => if s.running then (6, s) else (1, s)
  | 1 => (2, { s with running := true })
  | 2 => (3, { s with statusMenu := s.statusMenu.SetTitle "Status: Running..." })
  | 3 => (4, setIconForStatus fs "running" s)
  | 4 => (5, { s with trayTooltip := "NFC UID Reader - Running..." })
  | 5 => (6, { s with launched := { flags := s.currentFlags, ctx := s.serviceCtx } :: s.launched })
  | _ => (pc, s)

/-- One statement of `stopService` executed by a caller whose next statement
is number `pc`: `0` is the test `if !running`, `1` the assignment
`running = false`, `2` the call `serviceCancel()` under its nil guard,
`3` `statusMenu.SetTitle`, `4` `setIconForStatus`, `5` `systray.SetTooltip`,
and `6` is returned. The result is the caller's next statement and the shared
state. -/
def stopStep {C : Type} (fs : FS) (pc : Nat) (s : Tray C) : Nat × Tray C :=
  match pc with
  | 0 => if !s.running then (6, s) else (1, s)
  | 1 => (2, { s with running := false })
  | 2 =>
    (3, match s.serviceCancel with
        | some c => { s with cancelled := cancelCtx c s.cancelled }
        | none => s)
  | 3 => (4, { s with statusMenu := s.statusMenu.SetTitle "Status: Stopped" })
  | 4 => (5, setIconForStatus fs "stopped" s)
  | 5 => (6, { s with trayTooltip := "NFC UID Reader - Stopped" })
  | _ => (pc, s)

/-- A caller executes its next `n` statements, one `step` each. -/
def runSteps {C : Type} (step : Nat → Tray C → Nat × Tray C) (n : Nat)
    (r : Nat × Tray C) : Nat × Tray C :=
  Nat.iterate (fun r : Nat × Tray C => step r.1 r.2) n r

/-- Several callers inside `startService` at once: the shared state and each
caller's next statement. -/
structure Conc (C : Type) where
  shared : Tray C
  pcs : List Nat
deriving DecidableEq, Repr

/-- Caller `i` executes its next statement. -/
def stepThread {C : Type} (fs : FS) (k : Conc C) (i : Nat) : Conc C :=
  match k.pcs.get? i with
  | none => k
  | some pc =>
    let r := startStep fs pc k.shared
    { shared := r.2, pcs := k.pcs.set i r.1 }

/-- An interleaving: the callers take their steps in the order listed. -/
def runSchedule {C : Type} (fs : FS) (schedule : List Nat) (k : Conc C) : Conc C :=
  schedule.foldl (stepThread fs) k

/-- One caller running `startService` alone from the first statement to the
return. -/
def runAlone {C : Type} (fs : FS) (s : Tray C) : Nat × Tray C :=
  Nat.iterate (fun r : Nat × Tray C => startStep fs r.1 r.2) 6 (0, s)

/-! ## Predicates and sample inputs -/

/-- The presentation shown while the service is reported running. -/
def ShowsRunning {C : Type} (s : Tray C) : Prop :=
  s.statusMenu.title = "Status: Running..." ∧ s.iconStatus = "running" ∧
    s.trayTooltip = "NFC UID Reader - Running..."

/-- The presentation shown while the service is reported stopped. -/
def ShowsStopped {C : Type} (s : Tray C) : Prop :=
  s.statusMenu.title = "Status: Stopped" ∧ s.iconStatus = "stopped" ∧
    s.trayTooltip = "NFC UID Reader - Stopped"

/-- The status label, icon and tooltip agree with the `running` flag. -/
def StatusAgrees {C : Type} (s : Tray C) : Prop :=
  (s.running = true → ShowsRunning s) ∧ (s.running = false → ShowsStopped s)

/-- The status label, icon, tooltip and the title of the toggle item agree
with the `running` flag. -/
def PresentationAgrees {C : Type} (s : Tray C) : Prop :=
  (s.running = true → ShowsRunning s ∧ s.mToggle.title = "Stop") ∧
    (s.running = false → ShowsStopped s ∧ s.mToggle.title = "Start")

/-- A file system in which no icon file can be read. -/
def noFiles : FS := fun _ => none

/-- Flags with every option at its default, the characters being numbers. -/
def defaultFlags : Flags Nat :=
  { EndChar := 0, InChar := 0, CapsLock := false, Reverse := false, Decimal := false, Device := 0 }

/-- The invariant of the supervisor under start and stop calls: the context
and the cancel handle are the ones made in `onReady`, every launched task is
bound to that context, and either that context is cancelled, or nothing was
launched and the service is stopped, or the service runs with one task. -/
def SupInv {C : Type} (s : Tray C) : Prop :=
  s.serviceCtx = some 0 ∧ s.serviceCancel = some 0 ∧
    (∀ t ∈ s.launched, t.ctx = some 0) ∧
    (0 ∈ s.cancelled ∨ (s.running = false ∧ s.launched = []) ∨
      (s.running = true ∧ s.launched.length = 1))

/-- The state in which the service was started and stopped once. -/
def startedAndStopped : Tray Nat :=
  runCalls noFiles [Call.start, Call.stop] (onReady noFiles defaultFlags)

/-- The contents of the first readable file among `names`, in order, and
`fallback` when none is readable. -/
def firstReadable (fs : FS) (names : List String) (fallback : Option (List Nat)) :
    Option (List Nat) :=
  match names.findSome? fs with
  | some data => some data
  | none => fallback

/-- The icon lookup as the specification words it: the first readable file in
the order `icon_<status>.ico`, `icon_<status>.png`, `icon.ico`, `icon.png`,
and the built-in default bytes when none of the four is readable. -/
def specIconLookup (fs : FS) (status : String) : Option (List Nat) :=
  firstReadable fs
    ["icon_" ++ status ++ ".ico", "icon_" ++ status ++ ".png", "icon.ico", "icon.png"]
    getDefaultIcon

/-- A file system holding the generic `icon.ico` and nothing else. -/
def genericIconOnly : FS := fun name => if name = "icon.ico" then some [1, 2, 3] else none

/-- A state with `running` true that shows the stopped labels. The service is
running; the signal goroutine enters `stopService` and executes the test and
`running = false`; the menu goroutine then handles a toggle click, reads
`running` false and runs `startService` to its end; the signal goroutine then
executes the rest of `stopService`. -/
def runningShowingStopped : Tray Nat :=
  let started := startService noFiles (onReady noFiles defaultFlags)
  let halfStopped := runSteps (stopStep noFiles) 2 (0, started)
  let restarted := startService noFiles halfStopped.2
  (runSteps (stopStep noFiles) 4 (halfStopped.1, restarted)).2

/-- A state with `running` false that shows the running labels. From the state
`onReady` establishes the menu goroutine enters `startService` and executes the
test and `running = true`; the signal goroutine then runs `stopService` to its
end; the menu goroutine then executes the rest of `startService`. -/
def stoppedShowingRunning : Tray Nat :=
  let halfStarted := runSteps (startStep noFiles) 2 (0, onReady noFiles defaultFlags)
  let stopped := stopService noFiles halfStarted.2
  (runSteps (startStep noFiles) 4 (halfStarted.1, stopped)).2

/-- Two callers about to execute `startService` in the state `onReady`
establishes. -/
def twoCallers : Conc Nat :=
  { shared := onReady noFiles defaultFlags, pcs := [0, 0] }

/-- An interleaving in which the second caller tests `running` before the
first caller has assigned it. -/
def racySchedule : List Nat := [0, 1, 0, 0, 0, 0, 0, 1, 1, 1, 1, 1]

/-- The interleaving in which callers `i`, `i + 1`, ... (`m` of them) run one
after another, each through its six statements before the next begins. -/
def serialFrom (i : Nat) : Nat → List Nat
  | 0 => []
  | m + 1 => List.replicate 6 i ++ serialFrom (i + 1) m

/-- The serial interleaving of `k` callers. -/
def serialSchedule (k : Nat) : List Nat := serialFrom 0 k

/-! ## Icon lookup: basic facts -/

theorem getIconDataForStatus_ne_nil (fs : FS) (status : String) :
    ∃ data, getIconDataForStatus fs status = some data := by
  unfold getIconDataForStatus getDefaultIcon
  split
  · exact ⟨_, rfl⟩
  · split
    · exact ⟨_, rfl⟩
    · split
      · split
        · exact ⟨_, rfl⟩
        · split <;> exact ⟨_, rfl⟩
      · exact ⟨_, rfl⟩

theorem setIconForStatus_eq {C : Type} (fs : FS) (status : String) (s : Tray C) :
    ∃ data, getIconDataForStatus fs status = some data ∧
      setIconForStatus fs status s = { s with trayIcon := data, iconStatus := status } := by
  obtain ⟨data, h⟩ := getIconDataForStatus_ne_nil fs status
  exact ⟨data, h, by simp [setIconForStatus, h]⟩

/-! ## The supervisor: what one call does -/

theorem mem_cancelCtx (c : Nat) (cancelled : List Nat) : c ∈ cancelCtx c cancelled := by
  unfold cancelCtx
  split
  · assumption
  · exact List.mem_cons_self _ _

theorem subset_cancelCtx (c : Nat) (cancelled : List Nat) :
    ∀ d, d ∈ cancelled → d ∈ cancelCtx c cancelled := by
  intro d hd
  unfold cancelCtx
  split
  · exact hd
  · exact List.mem_cons_of_mem _ hd

theorem startService_running {C : Type} (fs : FS) (s : Tray C) (h : s.running = true) :
    startService fs s = s := by
  simp [startService, h]

theorem startService_stopped {C : Type} (fs : FS) (s : Tray C) (h : s.running = false) :
    ∃ data, getIconDataForStatus fs "running" = some data ∧
      startService fs s =
        { s with
          running := true
          statusMenu := s.statusMenu.SetTitle "Status: Running..."
          trayIcon := data
          iconStatus := "running"
          trayTooltip := "NFC UID Reader - Running..."
          launched := { flags := s.currentFlags, ctx := s.serviceCtx } :: s.launched } := by
  obtain ⟨data, h1, h2⟩ := setIconForStatus_eq fs "running"
    { s with running := true, statusMenu := s.statusMenu.SetTitle "Status: Running..." }
  refine ⟨data, h1, ?_⟩
  simp [startService, h, h2]

theorem stopService_stopped {C : Type} (fs : FS) (s : Tray C) (h : s.running = false) :
    stopService fs s = s := by
  simp [stopService, h]

theorem stopService_running {C : Type} (fs : FS) (s : Tray C) (h : s.running = true) :
    ∃ data, getIconDataForStatus fs "stopped" = some data ∧
      stopService fs s =
        { s with
          running := false
          cancelled :=
            match s.serviceCancel with
            | some c => cancelCtx c s.cancelled
            | none => s.cancelled
          statusMenu := s.statusMenu.SetTitle "Status: Stopped"
          trayIcon := data
          iconStatus := "stopped"
          trayTooltip := "NFC UID Reader - Stopped" } := by
  obtain ⟨data, h1⟩ := getIconDataForStatus_ne_nil fs "stopped"
  refine ⟨data, h1, ?_⟩
  cases hc : s.serviceCancel <;> simp [stopService, h, hc, setIconForStatus, h1]

theorem startService_showsRunning {C : Type} (fs : FS) (s : Tray C) (h : s.running = false) :
    ShowsRunning (startService fs s) := by
  obtain ⟨data, -, h2⟩ := startService_stopped fs s h
  rw [h2]
  simp [ShowsRunning, MenuItem.SetTitle]

theorem stopService_showsStopped {C : Type} (fs : FS) (s : Tray C) (h : s.running = true) :
    ShowsStopped (stopService fs s) := by
  obtain ⟨data, -, h2⟩ := stopService_running fs s h
  rw [h2]
  simp [ShowsStopped, MenuItem.SetTitle]

theorem startService_sets_running {C : Type} (fs : FS) (s : Tray C) :
    (startService fs s).running = true := by
  cases h : s.running
  · obtain ⟨data, -, h2⟩ := startService_stopped fs s h
    rw [h2]
  · rw [startService_running fs s h, h]

theorem stopService_clears_running {C : Type} (fs : FS) (s : Tray C) :
    (stopService fs s).running = false := by
  cases h : s.running
  · rw [stopService_stopped fs s h, h]
  · obtain ⟨data, -, h2⟩ := stopService_running fs s h
    rw [h2]

theorem onReady_statusAgrees {C : Type} (fs : FS) (flags : Flags C) :
    StatusAgrees (onReady fs flags) := by
  unfold onReady
  obtain ⟨data, -, h⟩ := setIconForStatus_eq fs "stopped"
    ({ serviceCtx := some 0
       serviceCancel := some 0
       running := false
       statusMenu := (AddMenuItem "Status: Stopped" "Current status").Disable
       deviceMenu := (AddMenuItem "Device: Not selected" "Selected device").Disable
       currentFlags := flags
       mToggle := AddMenuItem "Start" "Start reading NFC tags"
       mQuit := AddMenuItem "Quit" "Quit the application"
       trayIcon := []
       iconStatus := ""
       trayTooltip := "NFC UID Reader - Stopped"
       trayTitle := "NFC UID"
       quitRequested := false
       cancelled := []
       launched := [] } : Tray C)
  rw [h]
  simp [StatusAgrees, ShowsStopped, AddMenuItem, MenuItem.Disable]

theorem applyCall_statusAgrees {C : Type} (fs : FS) (s : Tray C) (c : Call)
    (h : StatusAgrees s) : StatusAgrees (applyCall fs s c) := by
  cases c
  · cases hr : s.running
    · exact ⟨fun _ => startService_showsRunning fs s hr,
        fun h2 => by simp [applyCall, startService_sets_running] at h2⟩
    · simpa [applyCall, startService_running fs s hr] using h
  · cases hr : s.running
    · simpa [applyCall, stopService_stopped fs s hr] using h
    · exact ⟨fun h2 => by simp [applyCall, stopService_clears_running] at h2,
        fun _ => stopService_showsStopped fs s hr⟩

theorem runCalls_statusAgrees {C : Type} (fs : FS) (calls : List Call) (s : Tray C)
    (h : StatusAgrees s) : StatusAgrees (runCalls fs calls s) := by
  induction calls generalizing s with
  | nil => exact h
  | cons c rest ih => exact ih _ (applyCall_statusAgrees fs s c h)

/-! ## Reachable states of the supervisor -/

theorem onReady_eq {C : Type} (fs : FS) (flags : Flags C) :
    ∃ data, getIconDataForStatus fs "stopped" = some data ∧
      onReady fs flags =
        { serviceCtx := some 0
          serviceCancel := some 0
          running := false
          statusMenu := (AddMenuItem "Status: Stopped" "Current status").Disable
          deviceMenu := (AddMenuItem "Device: Not selected" "Selected device").Disable
          currentFlags := flags
          mToggle := AddMenuItem "Start" "Start reading NFC tags"
          mQuit := AddMenuItem "Quit" "Quit the application"
          trayIcon := data
          iconStatus := "stopped"
          trayTooltip := "NFC UID Reader - Stopped"
          trayTitle := "NFC UID"
          quitRequested := false
          cancelled := []
          launched := [] } := by
  obtain ⟨data, h⟩ := getIconDataForStatus_ne_nil fs "stopped"
  exact ⟨data, h, by simp [onReady, setIconForStatus, h]⟩

theorem onReady_supInv {C : Type} (fs : FS) (flags : Flags C) :
    SupInv (onReady fs flags) := by
  obtain ⟨data, -, h⟩ := onReady_eq fs flags
  rw [h]
  simp [SupInv]

theorem applyCall_supInv {C : Type} (fs : FS) (s : Tray C) (c : Call) (h : SupInv s) :
    SupInv (applyCall fs s c) := by
  obtain ⟨h1, h2, h3, h4⟩ := h
  cases c
  · cases hr : s.running
    · obtain ⟨data, -, he⟩ := startService_stopped fs s hr
      simp only [applyCall]
      rw [he]
      refine ⟨h1, h2, ?_, ?_⟩
      · intro t ht
        simp only [List.mem_cons] at ht
        rcases ht with ht | ht
        · rw [ht]; exact h1
        · exact h3 t ht
      · rcases h4 with h4 | h4 | h4
        · exact Or.inl h4
        · refine Or.inr (Or.inr ⟨rfl, ?_⟩)
          simp [h4.2]
        · rw [hr] at h4; cases h4.1
    · simp only [applyCall]
      rw [startService_running fs s hr]
      exact ⟨h1, h2, h3, h4⟩
  · cases hr : s.running
    · simp only [applyCall]
      rw [stopService_stopped fs s hr]
      exact ⟨h1, h2, h3, h4⟩
    · obtain ⟨data, -, he⟩ := stopService_running fs s hr
      simp only [applyCall]
      rw [he]
      refine ⟨h1, h2, h3, Or.inl ?_⟩
      simp [h2, mem_cancelCtx]

theorem runCalls_supInv {C : Type} (fs : FS) (calls : List Call) (s : Tray C)
    (h : SupInv s) : SupInv (runCalls fs calls s) := by
  induction calls generalizing s with
  | nil => exact h
  | cons c rest ih => exact ih _ (applyCall_supInv fs s c h)

theorem runCalls_append {C : Type} (fs : FS) (pre post : List Call) (s : Tray C) :
    runCalls fs (pre ++ post) s = runCalls fs post (runCalls fs pre s) := by
  simp [runCalls, List.foldl_append]

theorem applyCall_cancelled_mono {C : Type} (fs : FS) (s : Tray C) (c : Call) :
    ∀ d, d ∈ s.cancelled → d ∈ (applyCall fs s c).cancelled := by
  intro d hd
  cases c
  · cases hr : s.running
    · obtain ⟨data, -, he⟩ := startService_stopped fs s hr
      simp only [applyCall]
      rw [he]
      exact hd
    · simp only [applyCall]
      rw [startService_running fs s hr]
      exact hd
  · cases hr : s.running
    · simp only [applyCall]
      rw [stopService_stopped fs s hr]
      exact hd
    · obtain ⟨data, -, he⟩ := stopService_running fs s hr
      simp only [applyCall]
      rw [he]
      cases hc : s.serviceCancel
      · simpa [hc] using hd
      · simpa [hc] using subset_cancelCtx _ _ d hd

theorem runCalls_cancelled_mono {C : Type} (fs : FS) (calls : List Call) (s : Tray C) :
    ∀ d, d ∈ s.cancelled → d ∈ (runCalls fs calls s).cancelled := by
  induction calls generalizing s with
  | nil => exact fun d hd => hd
  | cons c rest ih => exact fun d hd => ih _ d (applyCall_cancelled_mono fs s c d hd)

theorem liveCount_le_one_of_supInv {C : Type} (s : Tray C) (h : SupInv s) :
    liveCount s ≤ 1 := by
  obtain ⟨-, -, h3, h4⟩ := h
  unfold liveCount
  rcases h4 with h4 | h4 | h4
  · have : s.launched.filter (Task.live s.cancelled) = [] := by
      rw [List.filter_eq_nil_iff]
      intro t ht
      simp [Task.live, h3 t ht, h4]
    simp [this]
  · simp [h4.2]
  · exact le_trans (List.length_filter_le _ _) (le_of_eq h4.2)

theorem stopService_supInv_dead {C : Type} (fs : FS) (s : Tray C) (h : SupInv s) :
    0 ∈ (stopService fs s).cancelled ∨ s.launched = [] := by
  obtain ⟨-, h2, -, h4⟩ := h
  cases hr : s.running
  · rw [stopService_stopped fs s hr]
    rcases h4 with h4 | h4 | h4
    · exact Or.inl h4
    · exact Or.inr h4.2
    · rw [hr] at h4; cases h4.1
  · obtain ⟨data, -, he⟩ := stopService_running fs s hr
    rw [he]
    left
    simp [h2, mem_cancelCtx]

/-! ## Idempotence of start and stop -/

theorem runSteps_stopStep_eq_stopService {C : Type} (fs : FS) (s : Tray C) :
    runSteps (stopStep fs) 6 (0, s) = (6, stopService fs s) := by
  cases hr : s.running
  · simp [runSteps, Function.iterate_succ, stopStep, stopService, hr]
  · cases hc : s.serviceCancel <;>
      simp [runSteps, Function.iterate_succ, stopStep, stopService, hr, hc]

theorem runSteps_startStep_eq_startService {C : Type} (fs : FS) (s : Tray C) :
    runSteps (startStep fs) 6 (0, s) = (6, startService fs s) := by
  cases hr : s.running
  · simp [runSteps, Function.iterate_succ, startStep, startService, hr]
  · simp [runSteps, Function.iterate_succ, startStep, startService, hr]

/-- C2 at a state with `running` true that shows the stopped labels, reached
when the signal goroutine's `stopService` and the menu goroutine's
`startService` interleave: `startService` returns the state unchanged, so after
one call and after two calls the label, the icon and the tooltip are the
stopped ones, not the running ones. -/
theorem startService_keeps_stopped_labels :
    runningShowingStopped.running = true ∧
    startService noFiles runningShowingStopped = runningShowingStopped ∧
    (startService noFiles (startService noFiles runningShowingStopped)).running = true ∧
    (startService noFiles (startService noFiles runningShowingStopped)).statusMenu.title
      = "Status: Stopped" ∧
    (startService noFiles (startService noFiles runningShowingStopped)).iconStatus
      = "stopped" ∧
    (startService noFiles (startService noFiles runningShowingStopped)).trayTooltip
      = "NFC UID Reader - Stopped" ∧
    (startService noFiles (startService noFiles runningShowingStopped)).statusMenu.title
      ≠ "Status: Running..." := by
  decide

/-- C2 as amended: for every supervisor state, two `startService` calls in
direct succession give exactly the state one call gives. In that state
`running` is true; the status label, icon and tooltip are the running ones
whenever the state was stopped or already showed them, which is so in every
state reached from `onReady` by start and stop calls made one after another;
and the two calls together launch one reader task from a stopped state and
none from a running state. -/
theorem startService_twice_eq_once {C : Type} (fs : FS) (s : Tray C) :
    startService fs (startService fs s) = startService fs s ∧
    (startService fs s).running = true ∧
    ((s.running = false ∨ ShowsRunning s) → ShowsRunning (startService fs s)) ∧
    (∀ flags calls, s = runCalls fs calls (onReady fs flags) →
      ShowsRunning (startService fs s)) ∧
    (s.running = false →
      (startService fs (startService fs s)).launched =
        { flags := s.currentFlags, ctx := s.serviceCtx } :: s.launched) ∧
    (s.running = true → (startService fs (startService fs s)).launched = s.launched) := by
  have hidem : startService fs (startService fs s) = startService fs s :=
    startService_running fs _ (startService_sets_running fs s)
  have hshow : (s.running = false ∨ ShowsRunning s) → ShowsRunning (startService fs s) := by
    intro h
    cases hr : s.running
    · exact startService_showsRunning fs s hr
    · rw [startService_running fs s hr]
      rcases h with h | h
      · rw [hr] at h; cases h
      · exact h
  refine ⟨hidem, startService_sets_running fs s, hshow, ?_, ?_, ?_⟩
  · intro flags calls hs
    have hag : StatusAgrees s := by
      rw [hs]; exact runCalls_statusAgrees fs calls _ (onReady_statusAgrees fs flags)
    cases hr : s.running
    · exact hshow (Or.inl hr)
    · exact hshow (Or.inr (hag.1 hr))
  · intro hr
    rw [hidem]
    obtain ⟨data, -, h2⟩ := startService_stopped fs s hr
    rw [h2]
  · intro hr
    rw [hidem, startService_running fs s hr]

/-- C3 at a state with `running` false that shows the running labels, reached
when the signal goroutine's `stopService` runs between the assignment and the
`SetTitle` of the menu goroutine's `startService`: `stopService` returns the
state unchanged, so after one call and after two calls the label, the icon and
the tooltip are the running ones, not the stopped ones. -/
theorem stopService_keeps_running_labels :
    stoppedShowingRunning.running = false ∧
    stopService noFiles stoppedShowingRunning = stoppedShowingRunning ∧
    (stopService noFiles (stopService noFiles stoppedShowingRunning)).running = false ∧
    (stopService noFiles (stopService noFiles stoppedShowingRunning)).statusMenu.title
      = "Status: Running..." ∧
    (stopService noFiles (stopService noFiles stoppedShowingRunning)).iconStatus
      = "running" ∧
    (stopService noFiles (stopService noFiles stoppedShowingRunning)).trayTooltip
      = "NFC UID Reader - Running..." ∧
    (stopService noFiles (stopService noFiles stoppedShowingRunning)).statusMenu.title
      ≠ "Status: Stopped" := by
  decide

/-- C3 as amended: for every supervisor state, two `stopService` calls in
direct succession give exactly the state one call gives. In that state
`running` is false; the status label, icon and tooltip are the stopped ones
whenever the state was running or already showed them, which is so in every
state reached from `onReady` by start and stop calls made one after another;
and a `stopService` call made while `running` is false returns the state
unchanged, so no cancellation is signalled and nothing shown is updated. -/
theorem stopService_twice_eq_once {C : Type} (fs : FS) (s : Tray C) :
    stopService fs (stopService fs s) = stopService fs s ∧
    (stopService fs s).running = false ∧
    ((s.running = true ∨ ShowsStopped s) → ShowsStopped (stopService fs s)) ∧
    (∀ flags calls, s = runCalls fs calls (onReady fs flags) →
      ShowsStopped (stopService fs s)) ∧
    (s.running = false → stopService fs s = s) := by
  have hshow : (s.running = true ∨ ShowsStopped s) → ShowsStopped (stopService fs s) := by
    intro h
    cases hr : s.running
    · rw [stopService_stopped fs s hr]
      rcases h with h | h
      · rw [hr] at h; cases h
      · exact h
    · exact stopService_showsStopped fs s hr
  refine ⟨stopService_stopped fs _ (stopService_clears_running fs s),
    stopService_clears_running fs s, hshow, ?_, stopService_stopped fs s⟩
  intro flags calls hs
  have hag : StatusAgrees s := by
    rw [hs]; exact runCalls_statusAgrees fs calls _ (onReady_statusAgrees fs flags)
  cases hr : s.running
  · exact hshow (Or.inr (hag.2 hr))
  · exact hshow (Or.inl hr)

/-! ## What `stopService` does to the token -/

/-- C4 at a concrete state: after `onReady` and one `startService`, the state
is running, and `stopService` leaves the stored cancel handle in place. -/
theorem stopService_keeps_cancel_handle :
    (startService noFiles (onReady noFiles defaultFlags)).running = true ∧
    (stopService noFiles (startService noFiles (onReady noFiles defaultFlags))).serviceCancel
      = some 0 ∧
    (stopService noFiles (startService noFiles (onReady noFiles defaultFlags))).serviceCancel
      ≠ none := by
  decide

/-- C4 as amended: for every supervisor state with `running` true and a cancel
handle stored for context `c`, `stopService` cancels `c`, sets `running` to
false, and leaves `serviceCancel` and `serviceCtx` as they were: the handle is
kept, not cleared. -/
theorem stopService_cancels_and_keeps_handle {C : Type} (fs : FS) (s : Tray C) (c : Nat)
    (hr : s.running = true) (hc : s.serviceCancel = some c) :
    c ∈ (stopService fs s).cancelled ∧
    (stopService fs s).running = false ∧
    (stopService fs s).serviceCancel = some c ∧
    (stopService fs s).serviceCtx = s.serviceCtx := by
  obtain ⟨data, -, h2⟩ := stopService_running fs s hr
  rw [h2]
  simp [hc, mem_cancelCtx]

/-- The amended C4 at the state after `onReady` and one `startService`. -/
theorem stopService_cancels_and_keeps_handle_witness :
    (startService noFiles (onReady noFiles defaultFlags)).running = true ∧
    (startService noFiles (onReady noFiles defaultFlags)).serviceCancel = some 0 ∧
    0 ∈ (stopService noFiles (startService noFiles (onReady noFiles defaultFlags))).cancelled ∧
    (stopService noFiles (startService noFiles (onReady noFiles defaultFlags))).running = false ∧
    (stopService noFiles (startService noFiles (onReady noFiles defaultFlags))).serviceCancel
      = some 0 ∧
    (stopService noFiles (startService noFiles (onReady noFiles defaultFlags))).serviceCtx
      = (startService noFiles (onReady noFiles defaultFlags)).serviceCtx :=
  ⟨by decide, by decide,
    stopService_cancels_and_keeps_handle noFiles
      (startService noFiles (onReady noFiles defaultFlags)) 0 (by decide) (by decide)⟩

/-! ## The token handed to the reader task -/

/-- C1 at the sequence start, stop, start: the state after start and stop is
stopped, and the `startService` call made there sets `running`, shows
"Status: Running...", and launches the reader task bound to context `0`, the
one made in `onReady`, which `stopService` has cancelled; no launched task is
bound to a context that is not cancelled. -/
theorem restart_binds_cancelled_context :
    startedAndStopped.running = false ∧
    (startService noFiles startedAndStopped).running = true ∧
    (startService noFiles startedAndStopped).statusMenu.title = "Status: Running..." ∧
    (startService noFiles startedAndStopped).launched.head? =
      some { flags := defaultFlags, ctx := some 0 } ∧
    0 ∈ (startService noFiles startedAndStopped).cancelled ∧
    (startService noFiles startedAndStopped).launched.map
      (Task.live (startService noFiles startedAndStopped).cancelled) = [false, false] ∧
    liveCount (startService noFiles startedAndStopped) = 0 := by
  decide

theorem startService_task_live_iff {C : Type} (fs : FS) (flags : Flags C) (calls : List Call)
    (hr : (runCalls fs calls (onReady fs flags)).running = false) :
    (startService fs (runCalls fs calls (onReady fs flags))).launched.head?.map
        (Task.live (startService fs (runCalls fs calls (onReady fs flags))).cancelled) =
      some (decide (0 ∉ (runCalls fs calls (onReady fs flags)).cancelled)) := by
  obtain ⟨h1, -, -, -⟩ := runCalls_supInv fs calls _ (onReady_supInv fs flags)
  obtain ⟨data, -, he⟩ := startService_stopped fs _ hr
  rw [he]
  simp [Task.live, h1]

/-! ## At most one live reader task -/

/-- C5: for every finite sequence of `startService` and `stopService` calls
applied to the state `onReady` establishes, at every point of the sequence at
most one launched task is bound to a context that is not cancelled; and every
task launched before a `stopService` call is bound to a cancelled context at
every later point, in particular when a later `startService` launches the next
task. -/
theorem at_most_one_live_task {C : Type} (fs : FS) (flags : Flags C) (calls : List Call) :
    (∀ n, liveCount (runCalls fs (calls.take n) (onReady fs flags)) ≤ 1) ∧
    (∀ pre post, calls = pre ++ Call.stop :: post →
      ∀ t ∈ (runCalls fs pre (onReady fs flags)).launched,
        Task.live (runCalls fs calls (onReady fs flags)).cancelled t = false) := by
  constructor
  · intro n
    exact liveCount_le_one_of_supInv _ (runCalls_supInv fs _ _ (onReady_supInv fs flags))
  · intro pre post hcalls t ht
    have hinv := runCalls_supInv fs pre _ (onReady_supInv fs flags)
    have hctx : t.ctx = some 0 := hinv.2.2.1 t ht
    have hdead : 0 ∈ (stopService fs (runCalls fs pre (onReady fs flags))).cancelled := by
      rcases stopService_supInv_dead fs _ hinv with h | h
      · exact h
      · rw [h] at ht; cases ht
    have hlater : 0 ∈ (runCalls fs calls (onReady fs flags)).cancelled := by
      rw [hcalls, runCalls_append]
      exact runCalls_cancelled_mono fs post _ 0 hdead
    simp [Task.live, hctx, hlater]

/-! ## The presentation follows the running flag -/

theorem toggleClick_running_flips {C : Type} (fs : FS) (s : Tray C) :
    (toggleClick fs s).running = !s.running := by
  cases hr : s.running
  · simp [toggleClick, hr, startService_sets_running]
  · simp [toggleClick, hr, stopService_clears_running]

theorem toggleClick_presentationAgrees {C : Type} (fs : FS) (s : Tray C) :
    PresentationAgrees (toggleClick fs s) := by
  cases hr : s.running
  · obtain ⟨h1, h2, h3⟩ := startService_showsRunning fs s hr
    have hrun := startService_sets_running fs s
    simp [toggleClick, hr, PresentationAgrees, ShowsRunning, ShowsStopped, MenuItem.SetTitle,
      MenuItem.SetTooltip, h1, h2, h3, hrun]
  · obtain ⟨h1, h2, h3⟩ := stopService_showsStopped fs s hr
    have hrun := stopService_clears_running fs s
    simp [toggleClick, hr, PresentationAgrees, ShowsRunning, ShowsStopped, MenuItem.SetTitle,
      MenuItem.SetTooltip, h1, h2, h3, hrun]

theorem onReady_presentationAgrees {C : Type} (fs : FS) (flags : Flags C) :
    PresentationAgrees (onReady fs flags) := by
  obtain ⟨data, -, h⟩ := onReady_eq fs flags
  rw [h]
  simp [PresentationAgrees, ShowsStopped, AddMenuItem, MenuItem.Disable]

theorem clicks_presentationAgrees {C : Type} (fs : FS) (flags : Flags C) (n : Nat) :
    PresentationAgrees ((toggleClick fs)^[n] (onReady fs flags)) := by
  cases n with
  | zero => exact onReady_presentationAgrees fs flags
  | succ m =>
    rw [Function.iterate_succ_apply']
    exact toggleClick_presentationAgrees fs _

theorem clicks_running_parity {C : Type} (fs : FS) (flags : Flags C) (n : Nat) :
    ((toggleClick fs)^[n] (onReady fs flags)).running = decide (n % 2 = 1) := by
  induction n with
  | zero =>
    obtain ⟨data, -, h⟩ := onReady_eq fs flags
    simp [h]
  | succ m ih =>
    rw [Function.iterate_succ_apply', toggleClick_running_flips, ih]
    rcases Nat.mod_two_eq_zero_or_one m with h | h <;> simp [h, Nat.add_mod]

/-- C9: in the state reached from the state `onReady` establishes by any number
of toggle-item clicks, the presentation agrees with `running`: when `running`
is true the status item reads "Status: Running...", the tooltip reads
"NFC UID Reader - Running...", the icon was last selected for "running" and
the toggle item is titled "Stop"; when it is false they are "Status: Stopped",
"NFC UID Reader - Stopped", "stopped" and "Start"; and the next toggle click
flips `running`. -/
theorem presentation_agrees_after_clicks {C : Type} (fs : FS) (flags : Flags C) (n : Nat) :
    (((toggleClick fs)^[n] (onReady fs flags)).running = true →
      ((toggleClick fs)^[n] (onReady fs flags)).statusMenu.title = "Status: Running..." ∧
      ((toggleClick fs)^[n] (onReady fs flags)).trayTooltip = "NFC UID Reader - Running..." ∧
      ((toggleClick fs)^[n] (onReady fs flags)).iconStatus = "running" ∧
      ((toggleClick fs)^[n] (onReady fs flags)).mToggle.title = "Stop") ∧
    (((toggleClick fs)^[n] (onReady fs flags)).running = false →
      ((toggleClick fs)^[n] (onReady fs flags)).statusMenu.title = "Status: Stopped" ∧
      ((toggleClick fs)^[n] (onReady fs flags)).trayTooltip = "NFC UID Reader - Stopped" ∧
      ((toggleClick fs)^[n] (onReady fs flags)).iconStatus = "stopped" ∧
      ((toggleClick fs)^[n] (onReady fs flags)).mToggle.title = "Start") ∧
    (toggleClick fs ((toggleClick fs)^[n] (onReady fs flags))).running =
      !((toggleClick fs)^[n] (onReady fs flags)).running ∧
    ((toggleClick fs)^[n] (onReady fs flags)).running = decide (n % 2 = 1) := by
  refine ⟨fun h => ?_, fun h => ?_, toggleClick_running_flips fs _,
    clicks_running_parity fs flags n⟩
  · obtain ⟨⟨h1, h2, h3⟩, h4⟩ := (clicks_presentationAgrees fs flags n).1 h
    exact ⟨h1, h3, h2, h4⟩
  · obtain ⟨⟨h1, h2, h3⟩, h4⟩ := (clicks_presentationAgrees fs flags n).2 h
    exact ⟨h1, h3, h2, h4⟩

/-! ## Icon fallback order -/

/-- C7 at status "running" with only `icon.ico` readable: the first readable
file in the order of the claim is `icon.ico`, with contents `[1, 2, 3]`, and
`getIconDataForStatus` returns the built-in default bytes instead. -/
theorem running_icon_skips_generic_files :
    specIconLookup genericIconOnly "running" = some [1, 2, 3] ∧
    getIconDataForStatus genericIconOnly "running" = getDefaultIcon ∧
    getIconDataForStatus genericIconOnly "running" ≠ specIconLookup genericIconOnly "running" := by
  decide

/-- C7 as amended: for every file system, `getIconDataForStatus "stopped"`
returns the contents of the first readable file in the order
`icon_stopped.ico`, `icon_stopped.png`, `icon.ico`, `icon.png`, and
`getIconDataForStatus "running"` the first readable one of
`icon_running.ico`, `icon_running.png`; when none of the files consulted is
readable the result is the built-in default bytes; the result is never the
nil slice and the lookup has no error result. -/
theorem getIconDataForStatus_fallback_order (fs : FS) :
    getIconDataForStatus fs "stopped" =
      firstReadable fs ["icon_stopped.ico", "icon_stopped.png", "icon.ico", "icon.png"]
        getDefaultIcon ∧
    getIconDataForStatus fs "stopped" = specIconLookup fs "stopped" ∧
    getIconDataForStatus fs "running" =
      firstReadable fs ["icon_running.ico", "icon_running.png"] getDefaultIcon ∧
    (∀ status, ∃ data, getIconDataForStatus fs status = some data) := by
  have hs : getIconDataForStatus fs "stopped" =
      firstReadable fs ["icon_stopped.ico", "icon_stopped.png", "icon.ico", "icon.png"]
        getDefaultIcon := by
    simp only [getIconDataForStatus, firstReadable, icoFiles, pngFiles, List.findSome?,
      if_true, Option.bind]
    cases fs "icon_stopped.ico" <;> cases fs "icon_stopped.png" <;>
      cases fs "icon.ico" <;> cases fs "icon.png" <;> rfl
  refine ⟨hs, ?_, ?_, getIconDataForStatus_ne_nil fs⟩
  · rw [hs]
    have h1 : "icon_" ++ "stopped" ++ ".ico" = "icon_stopped.ico" := by decide
    have h2 : "icon_" ++ "stopped" ++ ".png" = "icon_stopped.png" := by decide
    simp only [specIconLookup, h1, h2]
  · have hne : ("running" = "stopped") = False := by decide
    simp only [getIconDataForStatus, firstReadable, icoFiles, pngFiles, List.findSome?,
      hne, if_true, if_false, Option.bind]
    cases fs "icon_running.ico" <;> cases fs "icon_running.png" <;> rfl

/-! ## Flag checking in `main` -/

/-- C8: for every resolver, every pair of `--end-char` and `--in-char` values
and every value of `--tray`, `main` starts reading (reaches `systray.Run` or
`service.Start()`) if and only if the resolver accepts both values; when
either is rejected `main` does nothing but the error exit, so it constructs no
service, does not run the tray and does not store `currentFlags`; and the
end-char value is checked first: when it is rejected the error is the end
character one whatever the in-char value is. -/
theorem main_starts_iff_flags_accepted {C : Type} (StringToCharFlag : String → C × Bool)
    (endChar inChar : String) (capsLock reverse decimal : Bool) (device : Int)
    (useTray : Bool) :
    ((main StringToCharFlag endChar inChar capsLock reverse decimal device useTray).any
        MainEvent.startsReading = true ↔
      ((StringToCharFlag endChar).2 = true ∧ (StringToCharFlag inChar).2 = true)) ∧
    (¬ ((StringToCharFlag endChar).2 = true ∧ (StringToCharFlag inChar).2 = true) →
      (∃ msg, main StringToCharFlag endChar inChar capsLock reverse decimal device useTray =
        [MainEvent.errorExit msg]) ∧
      (main StringToCharFlag endChar inChar capsLock reverse decimal device useTray).any
        MainEvent.startsWork = false) ∧
    ((StringToCharFlag endChar).2 = false →
      main StringToCharFlag endChar inChar capsLock reverse decimal device useTray =
        [MainEvent.errorExit
          "Unknown end character flag. Run with '-h' flag to check options"]) ∧
    ((StringToCharFlag endChar).2 = true → (StringToCharFlag inChar).2 = false →
      main StringToCharFlag endChar inChar capsLock reverse decimal device useTray =
        [MainEvent.errorExit
          "Unknown in character flag. Run with '-h' flag to check options"]) ∧
    ((StringToCharFlag endChar).2 = true → (StringToCharFlag inChar).2 = true →
      main StringToCharFlag endChar inChar capsLock reverse decimal device useTray =
        if useTray then
          [MainEvent.storeCurrentFlags
              { EndChar := (StringToCharFlag endChar).1, InChar := (StringToCharFlag inChar).1,
                CapsLock := capsLock, Reverse := reverse, Decimal := decimal,
                Device := device },
            MainEvent.systrayRun]
        else
          [MainEvent.newService
              { EndChar := (StringToCharFlag endChar).1, InChar := (StringToCharFlag inChar).1,
                CapsLock := capsLock, Reverse := reverse, Decimal := decimal,
                Device := device },
            MainEvent.serviceStart]) := by
  cases h1 : (StringToCharFlag endChar).2 <;> cases h2 : (StringToCharFlag inChar).2 <;>
    cases useTray <;>
    simp [main, h1, h2, MainEvent.startsReading, MainEvent.startsWork]

/-! ## Interleaved callers of `startService` -/

theorem runAlone_eq_startService {C : Type} (fs : FS) (s : Tray C) :
    runAlone fs s = (6, startService fs s) := by
  cases hr : s.running
  · simp [runAlone, Function.iterate_succ, startStep, startService, hr]
  · simp [runAlone, Function.iterate_succ, startStep, startService, hr]

theorem stepThread_at {C : Type} (fs : FS) (s : Tray C) (L R : List Nat) (pc : Nat) :
    stepThread fs { shared := s, pcs := L ++ pc :: R } L.length =
      { shared := (startStep fs pc s).2, pcs := L ++ (startStep fs pc s).1 :: R } := by
  have hget : (L ++ pc :: R).get? L.length = some pc := by
    rw [List.get?_eq_getElem?, List.getElem?_append_right (le_refl _)]
    simp
  have hset : ∀ x, (L ++ pc :: R).set L.length x = L ++ x :: R := by
    intro x
    simp
  simp only [stepThread, hget, hset]

theorem runSchedule_six {C : Type} (fs : FS) (s : Tray C) (L R : List Nat) :
    runSchedule fs (List.replicate 6 L.length) { shared := s, pcs := L ++ 0 :: R } =
      { shared := startService fs s, pcs := L ++ 6 :: R } := by
  cases hr : s.running
  · simp [runSchedule, List.replicate, stepThread_at, startStep, startService, hr]
  · simp [runSchedule, List.replicate, stepThread_at, startStep, startService, hr]

theorem runSchedule_append {C : Type} (fs : FS) (a b : List Nat) (k : Conc C) :
    runSchedule fs (a ++ b) k = runSchedule fs b (runSchedule fs a k) := by
  simp [runSchedule, List.foldl_append]

theorem runSchedule_serialFrom {C : Type} (fs : FS) (m : Nat) (s : Tray C) (L : List Nat) :
    runSchedule fs (serialFrom L.length m) { shared := s, pcs := L ++ List.replicate m 0 } =
      { shared := (startService fs)^[m] s, pcs := L ++ List.replicate m 6 } := by
  induction m generalizing s L with
  | zero => simp [serialFrom, runSchedule]
  | succ m ih =>
    have h0 : List.replicate (m + 1) (0 : Nat) = 0 :: List.replicate m 0 := rfl
    have h6 : List.replicate (m + 1) (6 : Nat) = 6 :: List.replicate m 6 := rfl
    rw [serialFrom, runSchedule_append, h0, runSchedule_six]
    have h := ih (startService fs s) (L ++ [6])
    simp only [List.length_append, List.length_singleton, List.append_assoc,
      List.singleton_append] at h
    rw [h, h6, Function.iterate_succ_apply]

theorem iterate_startService {C : Type} (fs : FS) (s : Tray C) (n : Nat) :
    (startService fs)^[n + 1] s = startService fs s := by
  induction n with
  | zero => rfl
  | succ n ih =>
    rw [Function.iterate_succ_apply', ih]
    exact startService_running fs _ (startService_sets_running fs s)

/-- C10 at two callers: from the stopped state `onReady` establishes, with the
second caller testing `running` before the first has assigned it, both callers
pass the test, both run `startService` to its end, and two reader tasks are
launched, both bound to a context that is not cancelled. -/
theorem interleaved_starts_launch_two_tasks :
    twoCallers.shared.running = false ∧
    (runSchedule noFiles racySchedule twoCallers).pcs = [6, 6] ∧
    (runSchedule noFiles racySchedule twoCallers).shared.running = true ∧
    (runSchedule noFiles racySchedule twoCallers).shared.launched.length = 2 ∧
    liveCount (runSchedule noFiles racySchedule twoCallers).shared = 2 ∧
    ¬ liveCount (runSchedule noFiles racySchedule twoCallers).shared = 1 := by
  decide

/-- C10 as amended: when any number of callers run `startService` one after
another from a stopped state, each through to its return before the next
begins, every caller returns, the shared state is the one a single
`startService` call gives, and exactly one reader task is launched. -/
theorem serial_starts_launch_one_task {C : Type} (fs : FS) (s : Tray C) (k : Nat)
    (hr : s.running = false) :
    (runSchedule fs (serialSchedule (k + 1))
        { shared := s, pcs := List.replicate (k + 1) 0 }).pcs = List.replicate (k + 1) 6 ∧
    (runSchedule fs (serialSchedule (k + 1))
        { shared := s, pcs := List.replicate (k + 1) 0 }).shared = startService fs s ∧
    (runSchedule fs (serialSchedule (k + 1))
        { shared := s, pcs := List.replicate (k + 1) 0 }).shared.launched =
      { flags := s.currentFlags, ctx := s.serviceCtx } :: s.launched := by
  have h := runSchedule_serialFrom fs (k + 1) s []
  simp only [List.length_nil, List.nil_append] at h
  have he : runSchedule fs (serialSchedule (k + 1))
      { shared := s, pcs := List.replicate (k + 1) 0 } =
      { shared := startService fs s, pcs := List.replicate (k + 1) 6 } := by
    rw [serialSchedule, h, iterate_startService]
  rw [he]
  obtain ⟨data, -, h2⟩ := startService_stopped fs s hr
  refine ⟨rfl, rfl, ?_⟩
  show (startService fs s).launched = _
  rw [h2]

/-- The amended C10 for three callers in the state `onReady` establishes. -/
theorem serial_starts_launch_one_task_witness :
    (onReady noFiles defaultFlags).running = false ∧
    (runSchedule noFiles (serialSchedule 3)
        { shared := onReady noFiles defaultFlags, pcs := [0, 0, 0] }).pcs = [6, 6, 6] ∧
    (runSchedule noFiles (serialSchedule 3)
        { shared := onReady noFiles defaultFlags, pcs := [0, 0, 0] }).shared =
      startService noFiles (onReady noFiles defaultFlags) ∧
    (runSchedule noFiles (serialSchedule 3)
        { shared := onReady noFiles defaultFlags, pcs := [0, 0, 0] }).shared.launched =
      [{ flags := defaultFlags, ctx := some 0 }] :=
  ⟨by decide, serial_starts_launch_one_task noFiles (onReady noFiles defaultFlags) 2 (by decide)⟩

end Nfcuid
